import Mathlib

/-!
Shallow embedding of two qudi plugin modules and proofs about them:

* `logic/joystick_logic.py` — `JoystickLogic`: a timer-driven poll loop that
  reads a joystick state dictionary from the hardware and compares it with the
  previously stored reading, emitting change events.
* `gui/camera/cameragui.py` — `CameraGUI` (with helper class `CrossLine`):
  ROI (region of interest) cursor handling on a camera image, crosshair
  tracking, pixel/meter coordinate conversion, bounds clamping after a drag,
  and construction of an image mask from the ROI.

Numeric values (Python floats and ints) are modelled as rationals `ℚ`;
Python `int()` truncation is modelled by `pyInt` (truncation toward zero)
and Python `range` by `pyRange` over `ℤ`.  Fallible Python code (attribute
access on an attribute that is never assigned, item assignment on `None`)
is modelled with `Except PyError`.  Signal emission is modelled as an output
list of events; `QTimer.start`/`QTimer.stop` as an output list of timer
commands.
-/

/-- Python runtime errors relevant to this code base. -/
inductive PyError : Type where
  /-- `AttributeError`: object has no attribute with the given name. -/
  | attributeError (attr : String) : PyError
  /-- `TypeError`, e.g. item assignment on a `None` value. -/
  | typeError : PyError
  deriving Repr, DecidableEq

/-- Python `int()` applied to a rational: truncation toward zero. -/
def pyInt (q : ℚ) : ℤ := if 0 ≤ q then ⌊q⌋ else ⌈q⌉

/-- Python `range(a, b)` as the list of integers `a, a+1, …, b-1`. -/
def pyRange (a b : ℤ) : List ℤ := (List.range (b - a).toNat).map (fun i : ℕ => a + (i : ℤ))

namespace JoystickLogic

/-- Joystick controls are identified by their string name, the keys of the
state dictionary returned by `hardware.get_state()`. -/
abbrev Ctrl := String

/-- A state snapshot: the dictionary returned by `hardware.get_state()`,
mapping each control name to its numeric value (a button value is truthy
iff it is nonzero). -/
abbrev HwState := Ctrl → ℚ

/-- Source: `JoystickLogic._button_list`. -/
def _button_list : List Ctrl :=
  ["left_up", "left_down", "left_left", "left_right", "left_joystick",
   "right_up", "right_down", "right_left", "right_right", "right_joystick",
   "middle_left", "middle_right", "left_shoulder", "right_shoulder"]

/-- Source: `JoystickLogic._axis_list`. -/
def _axis_list : List Ctrl :=
  ["left_vertical", "left_horizontal", "right_vertical", "right_horizontal",
   "left_trigger", "right_trigger"]

/-- Events observable from one call of `JoystickLogic.loop`:
per-control Qt signal emissions and the class-level signal
`sig_controller_changed`. -/
inductive JEvent : Type where
  | value_change (c : Ctrl) : JEvent
  | pressed (c : Ctrl) : JEvent
  | controller_changed : JEvent
  deriving Repr, DecidableEq

/-- Commands issued to the single-shot `QTimer` owned by the module. -/
inductive TimerCmd : Type where
  /-- `self.timer.start(interval)` with the interval in milliseconds. -/
  | start (interval : ℚ) : TimerCmd
  /-- `self.timer.stop()`. -/
  | stop : TimerCmd
  deriving Repr, DecidableEq

/-- The mutable attributes of a `JoystickLogic` instance that the polling
code reads and writes.  `events` mirrors the `events` attribute: the class
body initialises it to `None` (`events = None`), and `on_activate` tries to
fill it per control; a filled entry maps a control name to the list of its
event keys.  The class assigns `self._events` nowhere, so the instance
never has an `_events` attribute. -/
structure LogicState : Type where
  /-- `self.enabled`. -/
  enabled : Bool
  /-- `self._fps`. -/
  _fps : ℚ
  /-- `self._last_state`, the stored previous reading. -/
  _last_state : HwState
  /-- `self.events`: `none` models Python `None`. -/
  events : Option (List (Ctrl × List String))

/-- Source: `JoystickLogic.fps` — set or get the polling frequency. -/
def fps (st : LogicState) (value : Option ℚ) : LogicState × ℚ :=
  match value with
  | some v => ({ st with _fps := v }, v)
  | none => (st, st._fps)

/-- Source: `JoystickLogic.start_loop` — set `enabled` and start the timer
with interval `1000*1/self._fps`. -/
def start_loop (st : LogicState) : LogicState × TimerCmd :=
  ({ st with enabled := true }, TimerCmd.start (1000 * 1 / st._fps))

/-- Source: `JoystickLogic.stop_loop` — stop the timer and clear
`enabled`. -/
def stop_loop (st : LogicState) : LogicState × TimerCmd :=
  ({ st with enabled := false }, TimerCmd.stop)

/-- Source: `JoystickLogic.get_last_state` — return the last acquired
state. -/
def get_last_state (st : LogicState) : HwState := st._last_state

/-- The body of the `for button in self._button_list:` loop in
`JoystickLogic.loop`, iterated over the remaining button names.

Python source of the body:
  if state[button] != old_state[button]:
      changed = True
      self._events[button]['value_change'].emit()
      if state[button]:
          self._events[button]['pressed'].emit()

The class never assigns an `_events` attribute anywhere (the dictionary
built by `on_activate` is stored in `self.events`), so evaluating
`self._events` raises `AttributeError` before anything is emitted.  The
accumulator carries the events emitted so far and the `changed` flag. -/
def buttonPass (old_state state : HwState) :
    List Ctrl → List JEvent × Bool → Except PyError (List JEvent × Bool)
  | [], acc => Except.ok acc
  | _button :: rest, acc =>
    if state _button ≠ old_state _button then
      Except.error (PyError.attributeError "_events")
    else
      buttonPass old_state state rest acc

/-- The body of the `for axis in self._axis_list:` loop in
`JoystickLogic.loop`.

Python source of the body:
  if state[axis] != old_state[axis]:
      changed = True
      self._events[axis]['value_change'].emit()

As in `buttonPass`, `self._events` is an attribute the instance never has,
so a differing axis raises `AttributeError`. -/
def axisPass (old_state state : HwState) :
    List Ctrl → List JEvent × Bool → Except PyError (List JEvent × Bool)
  | [], acc => Except.ok acc
  | _axis :: rest, acc =>
    if state _axis ≠ old_state _axis then
      Except.error (PyError.attributeError "_events")
    else
      axisPass old_state state rest acc

/-- Source: `JoystickLogic.loop` — one iteration of the poll loop.  The
hardware reading delivered by `self._hardware.get_state()` is the argument
`hw`.  Returns the new instance state, the list of emitted events, and the
list of timer commands issued.  Mirrors the Python control flow:
`old_state = self._last_state`, `state = self._hardware.get_state()`,
early return when not enabled, the two diff loops, the conditional
`sig_controller_changed.emit()`, and the final
`self.timer.start(1000 * 1 / self._fps)`.  Note that the function body
never assigns `self._last_state`. -/
def loop (st : LogicState) (hw : HwState) :
    Except PyError (LogicState × List JEvent × List TimerCmd) :=
  let old_state := st._last_state
  let state := hw
  if ¬ st.enabled then
    Except.ok (st, [], [])
  else
    match buttonPass old_state state _button_list ([], false) with
    | Except.error e => Except.error e
    | Except.ok acc₁ =>
      match axisPass old_state state _axis_list acc₁ with
      | Except.error e => Except.error e
      | Except.ok (evs, changed) =>
        let evs := if changed then evs ++ [JEvent.controller_changed] else evs
        Except.ok (st, evs, [TimerCmd.start (1000 * 1 / st._fps)])

/-- Python item assignment `events[key] = val` on the `events` attribute:
when `events` is `None` (its class-body initial value) this raises
`TypeError` (`'NoneType' object does not support item assignment`);
otherwise it stores the binding. -/
def setItem (events : Option (List (Ctrl × List String))) (key : Ctrl)
    (val : List String) : Except PyError (Option (List (Ctrl × List String))) :=
  match events with
  | none => Except.error PyError.typeError
  | some m => Except.ok (some (m ++ [(key, val)]))

/-- The `for button in self._button_list:` assignment loop of
`on_activate`:
  self.events[button] = \x7b 'pressed': …, 'value_change': … \x7d. -/
def assignButtonEvents (events : Option (List (Ctrl × List String))) :
    List Ctrl → Except PyError (Option (List (Ctrl × List String)))
  | [] => Except.ok events
  | b :: rest =>
    match setItem events b ["pressed", "value_change"] with
    | Except.error e => Except.error e
    | Except.ok events₂ => assignButtonEvents events₂ rest

/-- The `for axis in self._axis_list:` assignment loop of `on_activate`:
  self.events[axis] = \x7b 'value_change': … \x7d. -/
def assignAxisEvents (events : Option (List (Ctrl × List String))) :
    List Ctrl → Except PyError (Option (List (Ctrl × List String)))
  | [] => Except.ok events
  | a :: rest =>
    match setItem events a ["value_change"] with
    | Except.error e => Except.error e
    | Except.ok events₂ => assignAxisEvents events₂ rest

/-- The initial attribute values a fresh `JoystickLogic` instance inherits
from the class body: `enabled = False`, `_fps = _max_fps = 100` (the
`ConfigOption` default), `_last_state = None` (modelled as the all-zero
reading, never consulted before `on_activate` overwrites it), and
`events = None`. -/
def initState : LogicState :=
  { enabled := false
    _fps := 100
    _last_state := fun _ => 0
    events := none }

/-- Source: `JoystickLogic.on_activate` — connect the hardware, set up the
timer, populate the `events` dictionary per button and axis, record an
initial hardware snapshot, and start the loop.  `hw` is the reading
`self._hardware.get_state()` would return.  The timer construction and
signal connection are Qt plumbing with no effect on the modelled state.
Returns the resulting state and the timer command of `start_loop`, or the
Python error raised. -/
def on_activate (st : LogicState) (hw : HwState) :
    Except PyError (LogicState × TimerCmd) :=
  match assignButtonEvents st.events _button_list with
  | Except.error e => Except.error e
  | Except.ok events₂ =>
    match assignAxisEvents events₂ _axis_list with
    | Except.error e => Except.error e
    | Except.ok events₃ =>
      let st := { st with events := events₃, _last_state := hw }
      Except.ok (start_loop st)

end JoystickLogic

namespace CrossLine

/-- Source: `CrossLine.adjust` — reposition one crosshair line from the
ROI.  `angle` is the line's fixed angle (`0` for the horizontal line,
`90` for the vertical one) and `value` its current value; `pos_x`,
`pos_y`, `size_x`, `size_y` come from `extroi.pos()` and `extroi.size()`.
Python body (two independent `if` statements):
  if self.angle == 0:  self.setValue(extroi.pos()[1] + extroi.size()[1] * 0.5)
  if self.angle == 90: self.setValue(extroi.pos()[0] + extroi.size()[0] * 0.5)
Returns the line's value after the call. -/
def adjust (angle value pos_x pos_y size_x size_y : ℚ) : ℚ :=
  let value := if angle = 0 then pos_y + size_y * 0.5 else value
  let value := if angle = 90 then pos_x + size_x * 0.5 else value
  value

end CrossLine

namespace CameraGUI

/-- The attributes of a `CameraGUI` instance (and of the widgets it drives)
that the ROI/coordinate code reads and writes: the ROI rectangle
(`self.roi_xy.pos()` is its lower-left corner, `self.roi_xy.size()` its
extent), the image size `self._image_size` (index 0 is the horizontal
pixel count, index 1 the vertical one), the configured pixel sizes
`self._pixel_size_x` / `self._pixel_size_y`, and the four numeric input
widgets for the cursor position in pixels and meters. -/
structure GuiState : Type where
  roi_pos_x : ℚ
  roi_pos_y : ℚ
  roi_size_x : ℚ
  roi_size_y : ℚ
  _image_size_x : ℤ
  _image_size_y : ℤ
  _pixel_size_x : ℚ
  _pixel_size_y : ℚ
  /-- `self._mw.x_current_InputWidget_pixels`. -/
  x_pixels_widget : ℚ
  /-- `self._mw.x_current_InputWidget_meter`. -/
  x_meter_widget : ℚ
  /-- `self._mw.y_current_InputWidget_pixels`. -/
  y_pixels_widget : ℚ
  /-- `self._mw.y_current_InputWidget_meter`. -/
  y_meter_widget : ℚ

/-- Source: `CameraGUI.update_intensity` — recomputes the mean intensity
inside the ROI from the mask and the raw image and writes it to the
display widget `self._mw.intensity_current`.  It assigns none of the
fields modelled in `GuiState`, so on this state it is the identity. -/
def update_intensity (g : GuiState) : GuiState := g

/-- Source: `CameraGUI.update_roi_xy` — adjust the ROI position so that the
crosshair point (the ROI center) moves to the given coordinates; a `none`
argument leaves that axis' origin untouched.  Python body:
  roi_h_view = self.roi_xy.pos()[0]
  roi_v_view = self.roi_xy.pos()[1]
  if h is not None: roi_h_view = h - self.roi_xy.size()[0] * 0.5
  if v is not None: roi_v_view = v - self.roi_xy.size()[1] * 0.5
  self.roi_xy.setPos([roi_h_view, roi_v_view])
  self.update_intensity() -/
def update_roi_xy (g : GuiState) (h v : Option ℚ) : GuiState :=
  let roi_h_view := g.roi_pos_x
  let roi_v_view := g.roi_pos_y
  let roi_h_view := match h with
    | some hval => hval - g.roi_size_x * 0.5
    | none => roi_h_view
  let roi_v_view := match v with
    | some vval => vval - g.roi_size_y * 0.5
    | none => roi_v_view
  update_intensity { g with roi_pos_x := roi_h_view, roi_pos_y := roi_v_view }

/-- Source: `CameraGUI.roi_xy_bounds_check` — after a drag finishes, clamp
the focus cursor (the ROI center `pos + 0.5 * size`, per axis) to the
allowed range and reposition the ROI there via `update_roi_xy`.  The
Python code computes `h_pos`/`v_pos`, the maxima from `self._image_size`,
then applies the four `if` statements in order before calling
`self.update_roi_xy(new_h_pos, new_v_pos)`. -/
def roi_xy_bounds_check (g : GuiState) : GuiState :=
  let h_pos := g.roi_pos_x + 0.5 * g.roi_size_x
  let v_pos := g.roi_pos_y + 0.5 * g.roi_size_y
  let new_h_pos := h_pos
  let new_v_pos := v_pos
  let max_h_pos : ℚ := (g._image_size_x : ℚ)
  let max_v_pos : ℚ := (g._image_size_y : ℚ)
  let new_h_pos := if h_pos > max_h_pos then max_h_pos else new_h_pos
  let new_h_pos := if h_pos < 0 then 0 else new_h_pos
  let new_v_pos := if v_pos > max_v_pos then max_v_pos else new_v_pos
  let new_v_pos := if v_pos < 0 then 0 else new_v_pos
  update_roi_xy g (some new_h_pos) (some new_v_pos)

/-- Source: `CameraGUI.update_from_input_x` — the user changed the x pixel
position spin box:
  x_pos = self._mw.x_current_InputWidget_pixels.value()
  self.update_roi_xy(h=x_pos)
  self._mw.x_current_InputWidget_meter.setValue(x_pos*self._pixel_size_x) -/
def update_from_input_x (g : GuiState) : GuiState :=
  let x_pos := g.x_pixels_widget
  let g := update_roi_xy g (some x_pos) none
  { g with x_meter_widget := x_pos * g._pixel_size_x }

/-- Source: `CameraGUI.update_from_input_x_meter` — the user changed the x
meter position spin box:
  x_pos = self._mw.x_current_InputWidget_meter.value()/self._pixel_size_x
  self.update_roi_xy(h=x_pos)
  self._mw.x_current_InputWidget_pixels.setValue(x_pos) -/
def update_from_input_x_meter (g : GuiState) : GuiState :=
  let x_pos := g.x_meter_widget / g._pixel_size_x
  let g := update_roi_xy g (some x_pos) none
  { g with x_pixels_widget := x_pos }

/-- Source: `CameraGUI.update_input_x` — update the displayed x value in
pixels and meters from a pixel position. -/
def update_input_x (g : GuiState) (x_pos : ℚ) : GuiState :=
  { g with x_pixels_widget := x_pos
           x_meter_widget := x_pos * g._pixel_size_x }

/-- Source: `CameraGUI.update_from_input_y` — the user changed the y pixel
position spin box:
  y_pos = self._mw.y_current_InputWidget_pixels.value()
  self.update_roi_xy(v=y_pos)
  self._mw.y_current_InputWidget_meter.setValue(y_pos*self._pixel_size_y) -/
def update_from_input_y (g : GuiState) : GuiState :=
  let y_pos := g.y_pixels_widget
  let g := update_roi_xy g none (some y_pos)
  { g with y_meter_widget := y_pos * g._pixel_size_y }

/-- Source: `CameraGUI.update_from_input_y_meter` — the user changed the y
meter position spin box:
  y_pos_meter = self._mw.y_current_InputWidget_meter.value()
  self.update_roi_xy(v=y_pos_meter/self._pixel_size_y)
  self._mw.y_current_InputWidget_pixels.setValue(y_pos_meter/self._pixel_size_y) -/
def update_from_input_y_meter (g : GuiState) : GuiState :=
  let y_pos_meter := g.y_meter_widget
  let g := update_roi_xy g none (some (y_pos_meter / g._pixel_size_y))
  { g with y_pixels_widget := y_pos_meter / g._pixel_size_y }

/-- Source: `CameraGUI.update_input_y` — update the displayed y value in
pixels and meters from a pixel position. -/
def update_input_y (g : GuiState) (y_pos : ℚ) : GuiState :=
  { g with y_pixels_widget := y_pos
           y_meter_widget := y_pos * g._pixel_size_y }

/-- One execution of `mask[v][h] = 1` on a mask modelled as a function from
(row index `v`, column index `h`) to the stored value. -/
def store (m : ℤ → ℤ → ℚ) (v h : ℤ) : ℤ → ℤ → ℚ :=
  fun v2 h2 => if v2 = v ∧ h2 = h then 1 else m v2 h2

/-- Source: `CameraGUI.create_mask_ROI` — build a mask of the image from
the ROI.  Python body:
  mask = image*0
  h_bounds = [int(pos[0] - size[0]/2), int(pos[0] + size[0]/2)+1]
  v_bounds = [int(pos[1] - size[1]/2), int(pos[1] + size[1]/2)+1]
  if pos[0]+size[0] >= self._image_size[0]: h_bounds[1] = self._image_size[0]
  if pos[1]+size[1] >= self._image_size[1]: v_bounds[1] = self._image_size[1]
  if pos[0] - size[0] <= 0: h_bounds[0] = 0
  if pos[1] - size[1] <= 0: v_bounds[0] = 0
  for h in range(h_bounds[0], h_bounds[1]):
      for v in range(v_bounds[0], v_bounds[1]):
          mask[v][h] = 1
  return mask
The image (`self._raw_data_image`) is indexed `image[v][h]`. -/
def create_mask_ROI (g : GuiState) (image : ℤ → ℤ → ℚ) : ℤ → ℤ → ℚ :=
  let mask : ℤ → ℤ → ℚ := fun v h => image v h * 0
  let h_lo := pyInt (g.roi_pos_x - g.roi_size_x / 2)
  let h_hi := pyInt (g.roi_pos_x + g.roi_size_x / 2) + 1
  let v_lo := pyInt (g.roi_pos_y - g.roi_size_y / 2)
  let v_hi := pyInt (g.roi_pos_y + g.roi_size_y / 2) + 1
  let h_hi := if g.roi_pos_x + g.roi_size_x ≥ (g._image_size_x : ℚ) then g._image_size_x else h_hi
  let v_hi := if g.roi_pos_y + g.roi_size_y ≥ (g._image_size_y : ℚ) then g._image_size_y else v_hi
  let h_lo := if g.roi_pos_x - g.roi_size_x ≤ 0 then 0 else h_lo
  let v_lo := if g.roi_pos_y - g.roi_size_y ≤ 0 then 0 else v_lo
  (pyRange h_lo h_hi).foldl
    (fun m h => (pyRange v_lo v_hi).foldl (fun m2 v => store m2 v h) m) mask

/-- The lower column bound `h_bounds[0]` of `create_mask_ROI` after the
conditional corrections. -/
def mask_h_lo (g : GuiState) : ℤ :=
  if g.roi_pos_x - g.roi_size_x ≤ 0 then 0
  else pyInt (g.roi_pos_x - g.roi_size_x / 2)

/-- The upper column bound `h_bounds[1]` of `create_mask_ROI` after the
conditional corrections. -/
def mask_h_hi (g : GuiState) : ℤ :=
  if g.roi_pos_x + g.roi_size_x ≥ (g._image_size_x : ℚ) then g._image_size_x
  else pyInt (g.roi_pos_x + g.roi_size_x / 2) + 1

/-- The lower row bound `v_bounds[0]` of `create_mask_ROI` after the
conditional corrections. -/
def mask_v_lo (g : GuiState) : ℤ :=
  if g.roi_pos_y - g.roi_size_y ≤ 0 then 0
  else pyInt (g.roi_pos_y - g.roi_size_y / 2)

/-- The upper row bound `v_bounds[1]` of `create_mask_ROI` after the
conditional corrections. -/
def mask_v_hi (g : GuiState) : ℤ :=
  if g.roi_pos_y + g.roi_size_y ≥ (g._image_size_y : ℚ) then g._image_size_y
  else pyInt (g.roi_pos_y + g.roi_size_y / 2) + 1

/-- The mask described by the words of claim C9: 1 exactly on the ROI
rectangle intersected with the image, 0 everywhere else.  The ROI
rectangle is read the way `create_mask_ROI` itself frames it, as the box
of half-extent `size/2` around `pos` (the counterexample below also lies
outside the alternative reading `[pos, pos + size]`). -/
def roiRectMaskSpec (g : GuiState) (v h : ℤ) : ℚ :=
  if g.roi_pos_x - g.roi_size_x / 2 ≤ (h : ℚ) ∧ (h : ℚ) ≤ g.roi_pos_x + g.roi_size_x / 2 ∧
     g.roi_pos_y - g.roi_size_y / 2 ≤ (v : ℚ) ∧ (v : ℚ) ≤ g.roi_pos_y + g.roi_size_y / 2 ∧
     0 ≤ h ∧ h < g._image_size_x ∧ 0 ≤ v ∧ v < g._image_size_y
  then 1 else 0

end CameraGUI

namespace CameraGUI

/-- A concrete GUI state: ROI of size 2×2 dragged so that its center
(1006, -2) lies beyond the right edge and below the bottom edge of a
1000×800 image, with pixel sizes 2 m and 4 m. -/
def g0 : GuiState :=
  { roi_pos_x := 1005
    roi_pos_y := -3
    roi_size_x := 2
    roi_size_y := 2
    _image_size_x := 1000
    _image_size_y := 800
    _pixel_size_x := 2
    _pixel_size_y := 4
    x_pixels_widget := 10
    x_meter_widget := 20
    y_pixels_widget := 30
    y_meter_widget := 120 }

/-- A concrete GUI state for the mask claims: ROI at position (5, 5) of
size 6×6 on a 1000×1000 image.  Since `pos - size ≤ 0` on both axes,
`create_mask_ROI` resets both lower bounds to 0 and marks pixels that lie
well outside the ROI rectangle. -/
def gC9 : GuiState :=
  { roi_pos_x := 5
    roi_pos_y := 5
    roi_size_x := 6
    roi_size_y := 6
    _image_size_x := 1000
    _image_size_y := 1000
    _pixel_size_x := 1
    _pixel_size_y := 1
    x_pixels_widget := 0
    x_meter_widget := 0
    y_pixels_widget := 0
    y_meter_widget := 0 }

/-- A concrete constant raw image. -/
def imgC9 : ℤ → ℤ → ℚ := fun _ _ => 7

end CameraGUI

namespace JoystickLogic

/-- The all-zero reading: every button released, every axis centered. -/
def s0 : HwState := fun _ => 0

/-- A reading in which the left_up button is pressed and everything else
is at zero. -/
def s1 : HwState := fun c => if c = "left_up" then 1 else 0

/-- An enabled instance at the default frequency whose stored previous
reading is the all-zero snapshot. -/
def st1 : LogicState :=
  { enabled := true
    _fps := 100
    _last_state := s0
    events := none }

/-- `loop` leaves the whole instance state unchanged whenever it returns
normally: in particular it never assigns `_last_state`. -/
theorem loop_ok_state (st : LogicState) (hw : HwState)
    (out : LogicState × List JEvent × List TimerCmd)
    (h : loop st hw = Except.ok out) : out.1 = st := by
  unfold loop at h
  by_cases he : st.enabled
  · simp only [he, not_true_eq_false, if_false] at h
    rcases hb : buttonPass st._last_state hw _button_list ([], false) with e | acc₁
    · rw [hb] at h; cases h
    · rw [hb] at h
      dsimp only at h
      rcases ha : axisPass st._last_state hw _axis_list acc₁ with e | ⟨evs, changed⟩
      · rw [ha] at h; cases h
      · rw [ha] at h
        dsimp only at h
        cases h
        rfl
  · simp only [he, not_false_eq_true, if_true] at h
    cases h
    rfl

end JoystickLogic

namespace JoystickLogic

/-- When the loop is not enabled, one invocation returns at the early
`return`: no event is emitted and the timer is not restarted. -/
theorem loop_disabled (st : LogicState) (hw : HwState)
    (he : st.enabled = false) : loop st hw = Except.ok (st, [], []) := by
  unfold loop
  simp [he]

/-- When an enabled invocation of `loop` returns normally, the one timer
command it issued is `timer.start(1000 * 1 / _fps)`. -/
theorem loop_ok_timer (st : LogicState) (hw : HwState)
    (out : LogicState × List JEvent × List TimerCmd)
    (h : loop st hw = Except.ok out) (he : st.enabled = true) :
    out.2.2 = [TimerCmd.start (1000 * 1 / st._fps)] := by
  unfold loop at h
  simp only [he, not_true_eq_false, if_false] at h
  rcases hb : buttonPass st._last_state hw _button_list ([], false) with e | acc₁ <;>
    rw [hb] at h
  · cases h
  · dsimp only at h
    rcases ha : axisPass st._last_state hw _axis_list acc₁ with e | ⟨evs, changed⟩ <;>
      rw [ha] at h
    · cases h
    · dsimp only at h
      cases h
      rfl

/-- C1: one iteration of `JoystickLogic.loop` is claimed to emit the
per-control value_change event for exactly the differing controls, the
pressed event for truthy new button values, and `sig_controller_changed`
iff something differed.  The code instead raises `AttributeError` at the
first differing control, because the emission lines read `self._events`,
an attribute that is assigned nowhere (the event dictionary is stored in
`self.events`).  Evaluated here at an enabled instance whose previous
snapshot is all-zero while the new reading has the left_up button pressed:
the invocation errors out instead of emitting the three claimed events. -/
theorem loop_raises_instead_of_emitting :
    loop st1 s1 = Except.error (PyError.attributeError "_events") := by
  rfl

/-- C2: `loop` is claimed to store the state read in each iteration so
that the next iteration diffs against the immediately preceding poll.  In
fact the function body never assigns `self._last_state`: whenever `loop`
returns normally the stored last state (as returned by `get_last_state`)
is exactly what it was before the call — forever the `on_activate`
snapshot — and whenever the fresh reading differs from that snapshot (in
particular on the first button, left_up) the iteration does not even
complete but raises `AttributeError` through `self._events`. -/
theorem last_state_never_updated :
    (∀ (st : LogicState) (hw : HwState)
        (out : LogicState × List JEvent × List TimerCmd),
        loop st hw = Except.ok out → get_last_state out.1 = get_last_state st) ∧
    (∀ (st : LogicState) (hw : HwState), st.enabled = true →
        hw "left_up" ≠ st._last_state "left_up" →
        loop st hw = Except.error (PyError.attributeError "_events")) := by
  constructor
  · intro st hw out h
    rw [loop_ok_state st hw out h]
  · intro st hw he hne
    have hb : buttonPass st._last_state hw _button_list ([], false)
        = Except.error (PyError.attributeError "_events") := by
      show buttonPass st._last_state hw ("left_up" :: _) ([], false) = _
      unfold buttonPass
      rw [if_pos hne]
    unfold loop
    simp only [he, not_true_eq_false, if_false, hb]

/-- Witness for C2: a completed no-change iteration keeps the stored
state, and the differing-state iteration from `st1` raises. -/
theorem last_state_never_updated_witness :
    get_last_state (st1, ([] : List JEvent),
        [TimerCmd.start (1000 * 1 / st1._fps)]).1 = get_last_state st1 ∧
    loop st1 s1 = Except.error (PyError.attributeError "_events") :=
  ⟨last_state_never_updated.1 st1 s0
      (st1, [], [TimerCmd.start (1000 * 1 / st1._fps)]) rfl,
   last_state_never_updated.2 st1 s1 rfl (by decide)⟩

/-- C6: both arming sites of the poll timer — `start_loop` and the tail of
a completed enabled `loop` iteration — use the same interval,
`1000/_fps` milliseconds, so consecutive polls are scheduled with a
constant period while `_fps` is unchanged. -/
theorem timer_period_constant :
    ∀ st : LogicState,
      (start_loop st).2 = TimerCmd.start (1000 / st._fps) ∧
      ∀ (hw : HwState) (out : LogicState × List JEvent × List TimerCmd),
        loop st hw = Except.ok out → st.enabled = true →
        out.2.2 = [TimerCmd.start (1000 / st._fps)] := by
  intro st
  constructor
  · show TimerCmd.start (1000 * 1 / st._fps) = TimerCmd.start (1000 / st._fps)
    norm_num
  · intro hw out h he
    rw [loop_ok_timer st hw out h he]
    norm_num

/-- Witness for C6 at the concrete enabled instance `st1` and a no-change
reading. -/
theorem timer_period_constant_witness :
    (start_loop st1).2 = TimerCmd.start (1000 / st1._fps) ∧
    (st1, ([] : List JEvent), [TimerCmd.start (1000 * 1 / st1._fps)]).2.2
      = [TimerCmd.start (1000 / st1._fps)] :=
  ⟨(timer_period_constant st1).1,
   (timer_period_constant st1).2 s0
      (st1, [], [TimerCmd.start (1000 * 1 / st1._fps)]) rfl rfl⟩

/-- C7: the only control state is the `enabled` flag: `start_loop` sets it
and arms the timer, `stop_loop` stops the timer and clears it, and a
`loop` invocation with `enabled` false emits no event and issues no timer
command. -/
theorem enabled_flag_semantics :
    ∀ st : LogicState,
      (start_loop st).1.enabled = true ∧
      (start_loop st).2 = TimerCmd.start (1000 * 1 / st._fps) ∧
      (stop_loop st).1.enabled = false ∧
      (stop_loop st).2 = TimerCmd.stop ∧
      ∀ hw : HwState, st.enabled = false → loop st hw = Except.ok (st, [], []) := by
  intro st
  exact ⟨rfl, rfl, rfl, rfl, fun hw he => loop_disabled st hw he⟩

/-- Witness for C7: a disabled invocation of `loop` from the fresh
instance state changes nothing, emits nothing and arms nothing. -/
theorem enabled_flag_semantics_witness :
    loop initState s0 = Except.ok (initState, [], []) :=
  (enabled_flag_semantics initState).2.2.2.2 s0 rfl

/-- C10: `on_activate` is claimed to complete without raising, populating
the `events` mapping for all 14 buttons and 6 axes.  The class body sets
`events = None`, so the very first item assignment
`self.events[button] = ...` raises `TypeError`; activation never reaches
the axis loop, the initial snapshot or `start_loop`, whatever the
hardware reports. -/
theorem on_activate_raises :
    ∀ hw : HwState, on_activate initState hw = Except.error PyError.typeError := by
  intro hw
  rfl

end JoystickLogic

/-- Membership in a Python `range`: exactly the integers from `a`
(inclusive) to `b` (exclusive). -/
theorem mem_pyRange {a b x : ℤ} : x ∈ pyRange a b ↔ a ≤ x ∧ x < b := by
  unfold pyRange
  simp only [List.mem_map, List.mem_range]
  constructor
  · rintro ⟨i, hi, rfl⟩
    omega
  · rintro ⟨h1, h2⟩
    exact ⟨(x - a).toNat, by omega, by omega⟩

namespace CameraGUI

/-- Folding the inner `mask[v][h] = 1` loop over a column list sets
exactly the listed rows of column `h`. -/
theorem foldl_store_col (h : ℤ) (vs : List ℤ) (m : ℤ → ℤ → ℚ) (v2 h2 : ℤ) :
    (vs.foldl (fun m2 v => store m2 v h) m) v2 h2
      = if v2 ∈ vs ∧ h2 = h then 1 else m v2 h2 := by
  induction vs generalizing m with
  | nil => simp
  | cons a t ih =>
    rw [List.foldl_cons, ih]
    simp only [store, List.mem_cons]
    split_ifs <;> first | rfl | tauto

/-- The double `for` loop of `create_mask_ROI` sets exactly the product
rectangle of the two index lists. -/
theorem foldl_store_grid (hs vs : List ℤ) (m : ℤ → ℤ → ℚ) (v2 h2 : ℤ) :
    (hs.foldl (fun mm h => vs.foldl (fun m2 v => store m2 v h) mm) m) v2 h2
      = if h2 ∈ hs ∧ v2 ∈ vs then 1 else m v2 h2 := by
  induction hs generalizing m with
  | nil => simp
  | cons a t ih =>
    rw [List.foldl_cons, ih, foldl_store_col]
    simp only [List.mem_cons]
    split_ifs <;> first | rfl | tauto

/-- Pointwise value of `create_mask_ROI`: 1 exactly on the integer
rectangle delimited by the four corrected bounds, 0 elsewhere. -/
theorem create_mask_ROI_eq (g : GuiState) (image : ℤ → ℤ → ℚ) (v h : ℤ) :
    create_mask_ROI g image v h
      = if (mask_h_lo g ≤ h ∧ h < mask_h_hi g) ∧ mask_v_lo g ≤ v ∧ v < mask_v_hi g
        then 1 else 0 := by
  simp only [create_mask_ROI, foldl_store_grid, mem_pyRange, mul_zero,
    mask_h_lo, mask_h_hi, mask_v_lo, mask_v_hi]

/-- The corrected lower bound of `create_mask_ROI` is nonnegative when the
ROI size on that axis is nonnegative. -/
theorem mask_lo_nonneg (pos size : ℚ) (hs : 0 ≤ size) :
    0 ≤ (if pos - size ≤ 0 then 0 else pyInt (pos - size / 2)) := by
  split_ifs with hc
  · exact le_refl 0
  · push_neg at hc
    have h1 : 0 ≤ pos - size / 2 := by linarith
    unfold pyInt
    rw [if_pos h1]
    exact Int.floor_nonneg.mpr h1

/-- The corrected upper bound of `create_mask_ROI` never exceeds the image
extent when the ROI size on that axis is nonnegative and the image extent
is at least 1. -/
theorem mask_hi_le (pos size : ℚ) (W : ℤ) (hs : 0 ≤ size) (hW : 1 ≤ W) :
    (if pos + size ≥ (W : ℚ) then W else pyInt (pos + size / 2) + 1) ≤ W := by
  split_ifs with hc
  · exact le_refl W
  · push_neg at hc
    have h1 : pos + size / 2 < (W : ℚ) := by linarith
    unfold pyInt
    split_ifs with h2
    · have h3 : ⌊pos + size / 2⌋ < W := Int.floor_lt.mpr (by exact_mod_cast h1)
      omega
    · have h4 : pos + size / 2 ≤ ((0 : ℤ) : ℚ) := by
        push_cast
        linarith [not_le.mp h2]
      have h5 : ⌈pos + size / 2⌉ ≤ 0 := Int.ceil_le.mpr h4
      omega

/-- Specialisation of `mask_lo_nonneg` to the horizontal bound. -/
theorem mask_h_lo_nonneg (g : GuiState) (hs : 0 ≤ g.roi_size_x) :
    0 ≤ mask_h_lo g := by
  unfold mask_h_lo
  exact mask_lo_nonneg _ _ hs

/-- Specialisation of `mask_lo_nonneg` to the vertical bound. -/
theorem mask_v_lo_nonneg (g : GuiState) (hs : 0 ≤ g.roi_size_y) :
    0 ≤ mask_v_lo g := by
  unfold mask_v_lo
  exact mask_lo_nonneg _ _ hs

/-- Specialisation of `mask_hi_le` to the horizontal bound. -/
theorem mask_h_hi_le (g : GuiState) (hs : 0 ≤ g.roi_size_x)
    (hW : 1 ≤ g._image_size_x) : mask_h_hi g ≤ g._image_size_x := by
  unfold mask_h_hi
  exact mask_hi_le _ _ _ hs hW

/-- Specialisation of `mask_hi_le` to the vertical bound. -/
theorem mask_v_hi_le (g : GuiState) (hs : 0 ≤ g.roi_size_y)
    (hW : 1 ≤ g._image_size_y) : mask_v_hi g ≤ g._image_size_y := by
  unfold mask_v_hi
  exact mask_hi_le _ _ _ hs hW

end CameraGUI

namespace CrossLine

/-- C5: the crosshair tracks the ROI center.  `createCrosshair` builds the
horizontal line with angle 0 and the vertical line with angle 90 and
connects `sigRegionChanged` of the ROI to each line's `adjust`, so after
every region change the horizontal line's value is
`pos()[1] + size()[1] * 0.5` and the vertical line's value is
`pos()[0] + size()[0] * 0.5`: both lines pass through the ROI center. -/
theorem adjust_tracks_center :
    ∀ value pos_x pos_y size_x size_y : ℚ,
      adjust 0 value pos_x pos_y size_x size_y = pos_y + size_y * 0.5 ∧
      adjust 90 value pos_x pos_y size_x size_y = pos_x + size_x * 0.5 := by
  intro value pos_x pos_y size_x size_y
  constructor
  · norm_num [adjust]
  · norm_num [adjust]

end CrossLine

namespace CameraGUI

/-- C3: `roi_xy_bounds_check` repositions the ROI so that its center
(`pos + size/2` per axis) becomes the previous center clamped
componentwise to `[0, image_width]` horizontally and `[0, image_height]`
vertically (stated for nonnegative image extents, which the clamp wording
presupposes); in particular a center already inside those bounds leaves
the ROI origin, hence the center, unchanged. -/
theorem bounds_check_clamps_center :
    ∀ g : GuiState, 0 ≤ g._image_size_x → 0 ≤ g._image_size_y →
      ((roi_xy_bounds_check g).roi_pos_x + (roi_xy_bounds_check g).roi_size_x * 0.5
          = max 0 (min (g.roi_pos_x + g.roi_size_x * 0.5) ((g._image_size_x : ℚ)))) ∧
      ((roi_xy_bounds_check g).roi_pos_y + (roi_xy_bounds_check g).roi_size_y * 0.5
          = max 0 (min (g.roi_pos_y + g.roi_size_y * 0.5) ((g._image_size_y : ℚ)))) ∧
      (0 ≤ g.roi_pos_x + g.roi_size_x * 0.5 →
        g.roi_pos_x + g.roi_size_x * 0.5 ≤ (g._image_size_x : ℚ) →
        (roi_xy_bounds_check g).roi_pos_x = g.roi_pos_x) ∧
      (0 ≤ g.roi_pos_y + g.roi_size_y * 0.5 →
        g.roi_pos_y + g.roi_size_y * 0.5 ≤ (g._image_size_y : ℚ) →
        (roi_xy_bounds_check g).roi_pos_y = g.roi_pos_y) := by
  intro g hWn hHn
  have hW : (0 : ℚ) ≤ (g._image_size_x : ℚ) := by exact_mod_cast hWn
  have hH : (0 : ℚ) ≤ (g._image_size_y : ℚ) := by exact_mod_cast hHn
  simp only [roi_xy_bounds_check, update_roi_xy, update_intensity]
  refine ⟨?_, ?_, ?_, ?_⟩
  · rw [max_def, min_def]
    split_ifs <;> linarith
  · rw [max_def, min_def]
    split_ifs <;> linarith
  · intro h1 h2
    split_ifs <;> linarith
  · intro h1 h2
    split_ifs <;> linarith

/-- Witness for C3 at the concrete state `g0`, whose center (1006, -2)
lies beyond the right image edge and below zero: the new center is the
clamped one on each axis. -/
theorem bounds_check_clamps_center_witness :
    ((roi_xy_bounds_check g0).roi_pos_x + (roi_xy_bounds_check g0).roi_size_x * 0.5
        = max 0 (min (g0.roi_pos_x + g0.roi_size_x * 0.5) ((g0._image_size_x : ℚ)))) ∧
    ((roi_xy_bounds_check g0).roi_pos_y + (roi_xy_bounds_check g0).roi_size_y * 0.5
        = max 0 (min (g0.roi_pos_y + g0.roi_size_y * 0.5) ((g0._image_size_y : ℚ)))) :=
  ⟨(bounds_check_clamps_center g0 (by decide) (by decide)).1,
   (bounds_check_clamps_center g0 (by decide) (by decide)).2.1⟩

/-- C4: the pixel/meter conversion is multiplication by the configured
pixel size per axis.  Entering a pixel value displays `p * pixel_size` in
the meter box; entering a meter value derives the pixel value
`m / pixel_size`; and for nonzero pixel size the two conversions are
mutually inverse on both axes. -/
theorem pixel_meter_conversion :
    ∀ g : GuiState,
      (update_from_input_x g).x_meter_widget = g.x_pixels_widget * g._pixel_size_x ∧
      (update_from_input_y g).y_meter_widget = g.y_pixels_widget * g._pixel_size_y ∧
      (update_from_input_x_meter g).x_pixels_widget
          = g.x_meter_widget / g._pixel_size_x ∧
      (update_from_input_y_meter g).y_pixels_widget
          = g.y_meter_widget / g._pixel_size_y ∧
      (g._pixel_size_x ≠ 0 →
        (update_from_input_x_meter (update_from_input_x g)).x_pixels_widget
            = g.x_pixels_widget ∧
        (update_from_input_x (update_from_input_x_meter g)).x_meter_widget
            = g.x_meter_widget) ∧
      (g._pixel_size_y ≠ 0 →
        (update_from_input_y_meter (update_from_input_y g)).y_pixels_widget
            = g.y_pixels_widget ∧
        (update_from_input_y (update_from_input_y_meter g)).y_meter_widget
            = g.y_meter_widget) := by
  intro g
  simp only [update_from_input_x, update_from_input_y, update_from_input_x_meter,
    update_from_input_y_meter, update_roi_xy, update_intensity]
  refine ⟨trivial, trivial, trivial, trivial, fun hx => ⟨?_, ?_⟩, fun hy => ⟨?_, ?_⟩⟩
  · exact mul_div_cancel_right₀ _ hx
  · exact div_mul_cancel₀ _ hx
  · exact mul_div_cancel_right₀ _ hy
  · exact div_mul_cancel₀ _ hy

/-- Witness for C4 at the concrete state `g0` (pixel sizes 2 and 4): both
round trips return the original widget values. -/
theorem pixel_meter_conversion_witness :
    (update_from_input_x_meter (update_from_input_x g0)).x_pixels_widget
        = g0.x_pixels_widget ∧
    (update_from_input_y (update_from_input_y_meter g0)).y_meter_widget
        = g0.y_meter_widget :=
  ⟨((pixel_meter_conversion g0).2.2.2.2.1 (by decide)).1,
   ((pixel_meter_conversion g0).2.2.2.2.2 (by decide)).2⟩

/-- C8: `update_roi_xy` moves the ROI so that, on each axis where an
argument is supplied, the ROI center (origin plus half its size) equals
that argument, and on each axis where the argument is omitted (`None`)
the ROI origin coordinate is unchanged. -/
theorem update_roi_xy_center_spec :
    ∀ (g : GuiState) (h v : Option ℚ),
      (∀ hval : ℚ, h = some hval →
        (update_roi_xy g h v).roi_pos_x + (update_roi_xy g h v).roi_size_x * 0.5
          = hval) ∧
      (h = none → (update_roi_xy g h v).roi_pos_x = g.roi_pos_x) ∧
      (∀ vval : ℚ, v = some vval →
        (update_roi_xy g h v).roi_pos_y + (update_roi_xy g h v).roi_size_y * 0.5
          = vval) ∧
      (v = none → (update_roi_xy g h v).roi_pos_y = g.roi_pos_y) := by
  intro g h v
  refine ⟨?_, ?_, ?_, ?_⟩
  · rintro hval rfl
    cases v <;> simp [update_roi_xy, update_intensity]
  · rintro rfl
    cases v <;> simp [update_roi_xy, update_intensity]
  · rintro vval rfl
    cases h <;> simp [update_roi_xy, update_intensity]
  · rintro rfl
    cases h <;> simp [update_roi_xy, update_intensity]

/-- Witness for C8 at `g0` with `h = some 7`, `v = None`: the new
horizontal center is 7 and the vertical origin is untouched. -/
theorem update_roi_xy_center_spec_witness :
    ((update_roi_xy g0 (some 7) none).roi_pos_x
        + (update_roi_xy g0 (some 7) none).roi_size_x * 0.5 = 7) ∧
    (update_roi_xy g0 (some 7) none).roi_pos_y = g0.roi_pos_y :=
  ⟨(update_roi_xy_center_spec g0 (some 7) none).1 7 rfl,
   (update_roi_xy_center_spec g0 (some 7) none).2.2.2 rfl⟩

end CameraGUI

namespace CameraGUI

/-- C9 (amended): for nonnegative ROI sizes and image extents of at least
one pixel, `create_mask_ROI` writes only indices inside the image — every
entry equal to 1 has `0 ≤ h < image_width` and `0 ≤ v < image_height` —
and the mask is 1 exactly on the integer index rectangle
`[mask_h_lo, mask_h_hi) × [mask_v_lo, mask_v_hi)` computed from the
truncated bounds `pos ± size/2` and the `pos + size`/`pos − size` clamp
tests, and 0 everywhere else.  (That rectangle coincides with the ROI
rectangle intersected with the image only while the ROI stays inside the
image; the clamp tests can extend it past the ROI rectangle, which is why
the original claim fails — see the counterexample.) -/
theorem create_mask_ROI_amended :
    ∀ (g : GuiState) (image : ℤ → ℤ → ℚ) (v h : ℤ),
      0 ≤ g.roi_size_x → 0 ≤ g.roi_size_y →
      1 ≤ g._image_size_x → 1 ≤ g._image_size_y →
      (create_mask_ROI g image v h
          = if (mask_h_lo g ≤ h ∧ h < mask_h_hi g) ∧ mask_v_lo g ≤ v ∧ v < mask_v_hi g
            then 1 else 0) ∧
      (create_mask_ROI g image v h = 1 →
        0 ≤ h ∧ h < g._image_size_x ∧ 0 ≤ v ∧ v < g._image_size_y) := by
  intro g image v h hsx hsy hWx hWy
  refine ⟨create_mask_ROI_eq g image v h, ?_⟩
  intro hmask
  rw [create_mask_ROI_eq] at hmask
  by_cases hcond :
      (mask_h_lo g ≤ h ∧ h < mask_h_hi g) ∧ mask_v_lo g ≤ v ∧ v < mask_v_hi g
  · obtain ⟨⟨h1, h2⟩, h3, h4⟩ := hcond
    have e1 := mask_h_lo_nonneg g hsx
    have e2 := mask_h_hi_le g hsx hWx
    have e3 := mask_v_lo_nonneg g hsy
    have e4 := mask_v_hi_le g hsy hWy
    omega
  · rw [if_neg hcond] at hmask
    exact absurd hmask (by norm_num)

/-- Witness for C9 (amended) at the concrete state `gC9` (ROI at (5,5) of
size 6×6 on a 1000×1000 image) and index (0,0). -/
theorem create_mask_ROI_amended_witness :
    (create_mask_ROI gC9 imgC9 0 0
        = if (mask_h_lo gC9 ≤ 0 ∧ (0:ℤ) < mask_h_hi gC9) ∧
             mask_v_lo gC9 ≤ 0 ∧ (0:ℤ) < mask_v_hi gC9
          then 1 else 0) ∧
    (create_mask_ROI gC9 imgC9 0 0 = 1 →
      (0:ℤ) ≤ 0 ∧ (0:ℤ) < gC9._image_size_x ∧ (0:ℤ) ≤ 0 ∧ (0:ℤ) < gC9._image_size_y) :=
  create_mask_ROI_amended gC9 imgC9 0 0 (by decide) (by decide) (by decide) (by decide)

/-- Counterexample to C9 as stated: at `gC9` the ROI rectangle (the box of
half-extent `size/2` around `pos`, the reading `create_mask_ROI`'s own
bound expressions use) has lower-left corner (2, 2), yet the returned
mask is 1 at index (0, 0), because `pos − size = −1 ≤ 0` resets both
lower bounds to 0.  The last two conjuncts place (0,0) strictly below the
rectangle's lower edges — and since `0 < 2 < pos`, the index also lies
outside the alternative reading `[pos, pos + size]` — so the mask is not
0 everywhere outside the ROI rectangle as claimed. -/
theorem create_mask_ROI_counterexample :
    create_mask_ROI gC9 imgC9 0 0 = 1 ∧ roiRectMaskSpec gC9 0 0 = 0 ∧
    (0:ℚ) < gC9.roi_pos_x - gC9.roi_size_x / 2 ∧
    (0:ℚ) < gC9.roi_pos_y - gC9.roi_size_y / 2 := by
  refine ⟨?_, ?_, ?_, ?_⟩
  · rw [create_mask_ROI_eq]
    norm_num [mask_h_lo, mask_h_hi, mask_v_lo, mask_v_hi, gC9, pyInt]
  · norm_num [roiRectMaskSpec, gC9]
  · norm_num [gC9]
  · norm_num [gC9]

end CameraGUI
